import Mathlib

/-!
Verification of the embodied-swarm resonance engine (the discrete-time
multi-agent simulator): a shallow embedding over the reals of the bot/object
data model, the per-tick update functions `update_bots` / `update_object`,
and the coherence metric, together with theorems settling the specified
properties.  JavaScript's `%` operator on nonnegative operands is modelled
by `jsMod` (remainder with truncation toward zero); `Math.sqrt`, `Math.cos`
and `Math.sin` are modelled by their real counterparts.
-/

namespace SwarmSim

open Real

/-- World/physics constants of the engine. -/
noncomputable def WORLD_SIZE : ℝ := 1000

noncomputable def BOT_RADIUS : ℝ := 15

noncomputable def OBJECT_RADIUS : ℝ := 50

noncomputable def RESONANCE_RANGE : ℝ := 100

noncomputable def COUPLING_STRENGTH : ℝ := 0.1

noncomputable def MAX_FORCE : ℝ := 5.0

noncomputable def DT : ℝ := 0.016

/-- Per-bot state record. -/
structure Bot where
  id : ℕ
  x : ℝ
  y : ℝ
  vx : ℝ
  vy : ℝ
  phase : ℝ
  frequency : ℝ
  target_x : ℝ
  target_y : ℝ
  energy : ℝ

instance : Inhabited Bot := ⟨⟨0, 0, 0, 0, 0, 0, 0, 0, 0, 0⟩⟩

/-- The shared heavy object's state record. -/
structure HeavyObject where
  x : ℝ
  y : ℝ
  vx : ℝ
  vy : ℝ
  mass : ℝ
  radius : ℝ

/-- The whole simulation state owned by the engine. -/
structure EngineState where
  bots : List Bot
  object : HeavyObject

/-- Truncation toward zero, as JavaScript division underlying `%` rounds. -/
noncomputable def jsTrunc (x : ℝ) : ℤ :=
  if 0 ≤ x then ⌊x⌋ else ⌈x⌉

/-- JavaScript's remainder operator `a % b` on reals. -/
noncomputable def jsMod (a b : ℝ) : ℝ :=
  a - b * (jsTrunc (a / b) : ℝ)

/-- Euclidean norm of a 2-vector, as the source's `Math.sqrt(x*x + y*y)`. -/
noncomputable def norm2 (x y : ℝ) : ℝ :=
  Real.sqrt (x * x + y * y)

/-- `get_resonance_coupling` from the source: hard range cutoff, cosine phase
factor, linear distance attenuation, scaled by both energies. -/
noncomputable def get_resonance_coupling (bot1 bot2 : Bot) : ℝ :=
  let dx := bot1.x - bot2.x
  let dy := bot1.y - bot2.y
  let distance := norm2 dx dy
  if RESONANCE_RANGE < distance then 0
  else
    let phase_diff := |bot1.phase - bot2.phase|
    let phase_factor := Real.cos phase_diff
    let distance_factor := 1 - distance / RESONANCE_RANGE
    COUPLING_STRENGTH * phase_factor * distance_factor * bot1.energy * bot2.energy

/-- One iteration of the first inner loop of `update_bots`: accumulate the
coupling attraction force and the Kuramoto phase influence from `other`
(`acc` is `(force_x, force_y, phase_influence)`). -/
noncomputable def couplingStep (bot : Bot) (acc : ℝ × ℝ × ℝ) (other : Bot) : ℝ × ℝ × ℝ :=
  if bot.id = other.id then acc
  else
    let coupling := get_resonance_coupling bot other
    if coupling = 0 then acc
    else
      (acc.1 + coupling * (other.x - bot.x) * 0.01,
       acc.2.1 + coupling * (other.y - bot.y) * 0.01,
       acc.2.2 + coupling * Real.sin (other.phase - bot.phase))

/-- The first inner loop of `update_bots` over the whole bot array. -/
noncomputable def couplingAccum (bots : List Bot) (bot : Bot) : ℝ × ℝ × ℝ :=
  bots.foldl (couplingStep bot) (0, 0, 0)

/-- Target attraction of `update_bots`: unit-vector pull of magnitude 0.5
toward the object's current center, skipped at zero distance. -/
noncomputable def targetApply (obj : HeavyObject) (bot : Bot) (f : ℝ × ℝ) : ℝ × ℝ :=
  let obj_dx := obj.x - bot.x
  let obj_dy := obj.y - bot.y
  let obj_dist := norm2 obj_dx obj_dy
  if 0 < obj_dist then (f.1 + obj_dx / obj_dist * 0.5, f.2 + obj_dy / obj_dist * 0.5)
  else f

/-- One iteration of the collision-avoidance loop of `update_bots`. -/
noncomputable def collisionStep (bot : Bot) (acc : ℝ × ℝ) (other : Bot) : ℝ × ℝ :=
  if bot.id = other.id then acc
  else
    let dx := bot.x - other.x
    let dy := bot.y - other.y
    let dist := norm2 dx dy
    let min_dist := BOT_RADIUS * 2
    if dist < min_dist ∧ 0 < dist then
      (acc.1 + dx / dist * ((min_dist - dist) / min_dist) * 2,
       acc.2 + dy / dist * ((min_dist - dist) / min_dist) * 2)
    else acc

/-- The collision-avoidance loop of `update_bots` over the whole bot array. -/
noncomputable def collisionAccum (bots : List Bot) (bot : Bot) (f : ℝ × ℝ) : ℝ × ℝ :=
  bots.foldl (collisionStep bot) f

/-- Force capping of `update_bots`: rescale to magnitude `MAX_FORCE` when the
accumulated force exceeds it. -/
noncomputable def capForce (f : ℝ × ℝ) : ℝ × ℝ :=
  let force_magnitude := norm2 f.1 f.2
  if MAX_FORCE < force_magnitude then
    (f.1 / force_magnitude * MAX_FORCE, f.2 / force_magnitude * MAX_FORCE)
  else f

/-- The body of the second `forEach` of `update_bots`, acting on one bot:
coupling/phase accumulation, phase nudge, target attraction, collision
avoidance, force capping, integration with damping `0.95`, boundary clamp.
`bots` is the current (partially updated) bot array it reads. -/
noncomputable def stepBot (bots : List Bot) (obj : HeavyObject) (bot : Bot) : Bot :=
  let acc := couplingAccum bots bot
  let phase1 := bot.phase + acc.2.2 * DT
  let f1 := targetApply obj bot (acc.1, acc.2.1)
  let f2 := collisionAccum bots bot f1
  let f3 := capForce f2
  let vx1 := (bot.vx + f3.1 * DT * bot.energy) * 0.95
  let vy1 := (bot.vy + f3.2 * DT * bot.energy) * 0.95
  { bot with
    phase := phase1
    vx := vx1
    vy := vy1
    x := max BOT_RADIUS (min (WORLD_SIZE - BOT_RADIUS) (bot.x + vx1 * DT))
    y := max BOT_RADIUS (min (WORLD_SIZE - BOT_RADIUS) (bot.y + vy1 * DT)) }

/-- The first `forEach` of `update_bots`: free phase advance, wrapped by
JavaScript's `%` with modulus `2π`. -/
noncomputable def advancePhase (b : Bot) : Bot :=
  { b with phase := jsMod (b.phase + b.frequency * DT) (2 * Real.pi) }

/-- Sequential in-place pass over the bot array: process the listed indices
in order, each step replacing that index by its `stepBot` update computed
from the current array (exactly the mutation pattern of the source's
`forEach`). -/
noncomputable def passAux (obj : HeavyObject) : List ℕ → List Bot → List Bot
  | [], cur => cur
  | i :: rest, cur => passAux obj rest (cur.set i (stepBot cur obj (cur.getD i default)))

/-- The full second pass of `update_bots` over indices `0 .. n-1`. -/
noncomputable def couplingPass (obj : HeavyObject) (bots : List Bot) : List Bot :=
  passAux obj (List.range bots.length) bots

/-- `update_bots` from the source: advance and wrap all phases, then run the
sequential coupling/force pass. -/
noncomputable def update_bots (s : EngineState) : EngineState :=
  { s with bots := couplingPass s.object (s.bots.map advancePhase) }

/-- Modelled from the spec: the double-buffered variant of `update_bots`
described in §5 (absent from the source, which updates in place) — all
forces and phase deltas are computed from the frozen post-free-advance
snapshot and applied in a second pass. -/
noncomputable def update_bots_buffered (s : EngineState) : EngineState :=
  let snapshot := s.bots.map advancePhase
  { s with bots := snapshot.map (stepBot snapshot s.object) }

/-- Distance from a bot to the object's center, as in `update_object`. -/
noncomputable def objDist (o : HeavyObject) (b : Bot) : ℝ :=
  norm2 (b.x - o.x) (b.y - o.y)

/-- The quantity the source names `vel_toward_obj`:
`(bot.vx*dx + bot.vy*dy) / dist` with `dx = bot.x - object.x`.  Since `dx`
points from the object to the bot, this is in fact the bot's *outward* radial
velocity — positive when the bot recedes from the object's center. -/
noncomputable def velToward (o : HeavyObject) (b : Bot) : ℝ :=
  (b.vx * (b.x - o.x) + b.vy * (b.y - o.y)) / objDist o b

/-- One iteration of `update_object`'s loop: a bot in push range whose
`velToward` (the outward radial velocity, despite the source's comment saying
"velocity toward object") is strictly positive accumulates
`velToward × displacement/dist × energy` and bumps the interacting-bot
count. -/
noncomputable def botPush (o : HeavyObject) (acc : ℝ × ℝ × ℕ) (b : Bot) : ℝ × ℝ × ℕ :=
  if objDist o b < OBJECT_RADIUS + BOT_RADIUS + 20 then
    if 0 < velToward o b then
      (acc.1 + velToward o b * (b.x - o.x) / objDist o b * b.energy,
       acc.2.1 + velToward o b * (b.y - o.y) / objDist o b * b.energy,
       acc.2.2 + 1)
    else acc
  else acc

/-- `update_object` from the source: accumulate directional bot pushes, apply
`totalForce / mass × DT` when any bot interacted, damp by `0.98`, integrate,
clamp to world bounds with the object's radius. -/
noncomputable def update_object (s : EngineState) : EngineState :=
  let acc := s.bots.foldl (botPush s.object) (0, 0, 0)
  let o := s.object
  let vx1 := if 0 < acc.2.2 then o.vx + acc.1 / o.mass * DT else o.vx
  let vy1 := if 0 < acc.2.2 then o.vy + acc.2.1 / o.mass * DT else o.vy
  let vx2 := vx1 * 0.98
  let vy2 := vy1 * 0.98
  { s with
    object :=
      { o with
        vx := vx2
        vy := vy2
        x := max OBJECT_RADIUS (min (WORLD_SIZE - OBJECT_RADIUS) (o.x + vx2 * DT))
        y := max OBJECT_RADIUS (min (WORLD_SIZE - OBJECT_RADIUS) (o.y + vy2 * DT)) } }

/-- One full simulation tick of `run_simulation`: bots first, then object. -/
noncomputable def tick (s : EngineState) : EngineState :=
  update_object (update_bots s)

/-- The coherence (Kuramoto order parameter) of `get_metrics`; the source
divides by `NUM_BOTS`, which always equals the length of its bot array. -/
noncomputable def coherence (bots : List Bot) : ℝ :=
  let sum_cos := (bots.map fun b => Real.cos b.phase).sum
  let sum_sin := (bots.map fun b => Real.sin b.phase).sum
  let avg_cos := sum_cos / bots.length
  let avg_sin := sum_sin / bots.length
  Real.sqrt (avg_cos * avg_cos + avg_sin * avg_sin)

/-- A bot's position is inside the world bounds inclusive of its radius. -/
def Clamped (b : Bot) : Prop :=
  BOT_RADIUS ≤ b.x ∧ b.x ≤ WORLD_SIZE - BOT_RADIUS ∧
  BOT_RADIUS ≤ b.y ∧ b.y ≤ WORLD_SIZE - BOT_RADIUS

/-! Basic lemmas about `jsMod`, `norm2` and the sequential pass. -/

lemma jsMod_eq_self {a b : ℝ} (h0 : 0 ≤ a) (hb : 0 < b) (hab : a < b) : jsMod a b = a := by
  have hdiv0 : 0 ≤ a / b := div_nonneg h0 hb.le
  have hdiv1 : a / b < 1 := (div_lt_one hb).mpr hab
  rw [jsMod, jsTrunc, if_pos hdiv0, Int.floor_eq_zero_iff.mpr (Set.mem_Ico.mpr ⟨hdiv0, hdiv1⟩)]
  simp

lemma jsMod_eq_sub {a b : ℝ} (hb : 0 < b) (h1 : b ≤ a) (h2 : a < 2 * b) : jsMod a b = a - b := by
  have h0 : (0 : ℝ) ≤ a := le_trans hb.le h1
  have hdiv0 : 0 ≤ a / b := div_nonneg h0 hb.le
  have hfl : ⌊a / b⌋ = 1 := by
    rw [Int.floor_eq_iff]
    constructor
    · push_cast
      exact (le_div_iff₀ hb).mpr (by linarith)
    · push_cast
      rw [div_lt_iff₀ hb]
      linarith
  rw [jsMod, jsTrunc, if_pos hdiv0, hfl]
  push_cast
  ring

lemma jsMod_nonneg_lt {a b : ℝ} (h0 : 0 ≤ a) (hb : 0 < b) :
    0 ≤ jsMod a b ∧ jsMod a b < b := by
  have hdiv0 : 0 ≤ a / b := div_nonneg h0 hb.le
  have hne : b ≠ 0 := ne_of_gt hb
  have key : jsMod a b = b * Int.fract (a / b) := by
    rw [jsMod, jsTrunc, if_pos hdiv0, ← Int.self_sub_floor, mul_sub, mul_comm b (a / b),
      div_mul_cancel₀ a hne]
  constructor
  · rw [key]
    exact mul_nonneg hb.le (Int.fract_nonneg _)
  · rw [key]
    calc b * Int.fract (a / b) < b * 1 := (mul_lt_mul_left hb).mpr (Int.fract_lt_one _)
      _ = b := mul_one b

lemma norm2_nonneg (x y : ℝ) : 0 ≤ norm2 x y := Real.sqrt_nonneg _

lemma norm2_eval {x y r : ℝ} (hr : 0 ≤ r) (h : x * x + y * y = r * r) : norm2 x y = r := by
  rw [norm2, h, Real.sqrt_mul_self hr]

lemma sum_sq_norm2 (a b : ℝ) : norm2 a b * norm2 a b = a * a + b * b :=
  Real.mul_self_sqrt (by nlinarith [mul_self_nonneg a, mul_self_nonneg b])

lemma inner_le_norm2 (a b c d : ℝ) : a * c + b * d ≤ norm2 a b * norm2 c d := by
  have h1 : (a * c + b * d) ^ 2 ≤ (a * a + b * b) * (c * c + d * d) := by
    nlinarith [sq_nonneg (a * d - b * c)]
  have h2 : norm2 a b * norm2 c d = Real.sqrt ((a * a + b * b) * (c * c + d * d)) := by
    rw [norm2, norm2,
      ← Real.sqrt_mul (by nlinarith [mul_self_nonneg a, mul_self_nonneg b])]
  rw [h2]
  calc a * c + b * d ≤ |a * c + b * d| := le_abs_self _
    _ = Real.sqrt ((a * c + b * d) ^ 2) := (Real.sqrt_sq_eq_abs _).symm
    _ ≤ Real.sqrt ((a * a + b * b) * (c * c + d * d)) := Real.sqrt_le_sqrt h1

lemma norm2_triangle (a b c d : ℝ) : norm2 (a + c) (b + d) ≤ norm2 a b + norm2 c d := by
  have hy : 0 ≤ norm2 a b + norm2 c d := add_nonneg (norm2_nonneg a b) (norm2_nonneg c d)
  rw [norm2]
  apply Real.sqrt_le_iff.mpr
  refine ⟨hy, ?_⟩
  have h1 := sum_sq_norm2 a b
  have h2 := sum_sq_norm2 c d
  have h3 := inner_le_norm2 a b c d
  nlinarith [h1, h2, h3]

lemma norm2_smul {k : ℝ} (a b : ℝ) (hk : 0 ≤ k) : norm2 (a * k) (b * k) = norm2 a b * k := by
  rw [norm2, norm2, show a * k * (a * k) + b * k * (b * k) = (a * a + b * b) * (k * k) by ring,
    Real.sqrt_mul (by nlinarith [mul_self_nonneg a, mul_self_nonneg b]), Real.sqrt_mul_self hk]

lemma sqrt_two_mul_self : Real.sqrt 2 * Real.sqrt 2 = 2 :=
  Real.mul_self_sqrt (by norm_num)

lemma sqrt_two_pos : 0 < Real.sqrt 2 := Real.sqrt_pos.mpr (by norm_num)

lemma cos_seven_pi_quarter : Real.cos (7 * Real.pi / 4) = Real.sqrt 2 / 2 := by
  rw [show 7 * Real.pi / 4 = 2 * Real.pi - Real.pi / 4 by ring, Real.cos_sub, Real.cos_two_pi,
    Real.sin_two_pi, Real.cos_pi_div_four, Real.sin_pi_div_four]
  ring

lemma sin_seven_pi_quarter : Real.sin (7 * Real.pi / 4) = -(Real.sqrt 2 / 2) := by
  rw [show 7 * Real.pi / 4 = 2 * Real.pi - Real.pi / 4 by ring, Real.sin_sub, Real.cos_two_pi,
    Real.sin_two_pi, Real.cos_pi_div_four, Real.sin_pi_div_four]
  ring

lemma sin_pi_quarter_sub_two_pi : Real.sin (Real.pi / 4 - 2 * Real.pi) = Real.sqrt 2 / 2 := by
  rw [Real.sin_sub, Real.cos_two_pi, Real.sin_two_pi, Real.cos_pi_div_four, Real.sin_pi_div_four]
  ring

lemma cos_double_small_lt_one {x : ℝ} (h0 : 0 < x) (hpi : x < Real.pi) :
    Real.cos (2 * x) < 1 := by
  have hs : 0 < Real.sin x := Real.sin_pos_of_pos_of_lt_pi h0 hpi
  have h2 : Real.cos (2 * x) = 1 - 2 * Real.sin x ^ 2 := by
    rw [Real.cos_two_mul, Real.cos_sq']
    ring
  rw [h2]
  nlinarith

lemma passAux_length (obj : HeavyObject) :
    ∀ (idxs : List ℕ) (cur : List Bot), (passAux obj idxs cur).length = cur.length := by
  intro idxs
  induction idxs with
  | nil => intro cur; rfl
  | cons i rest ih =>
    intro cur
    rw [passAux, ih, List.length_set]

lemma passAux_getD_not_mem (obj : HeavyObject) :
    ∀ (idxs : List ℕ) (cur : List Bot) (j : ℕ), j ∉ idxs →
      (passAux obj idxs cur).getD j default = cur.getD j default := by
  intro idxs
  induction idxs with
  | nil => intro cur j _; rfl
  | cons i rest ih =>
    intro cur j hj
    have hji : j ≠ i := fun h => hj (h ▸ List.mem_cons_self i rest)
    have hjr : j ∉ rest := fun h => hj (List.mem_cons_of_mem i h)
    rw [passAux, ih _ _ hjr]
    simp [List.getD_eq_getElem?_getD, List.getElem?_set_ne (Ne.symm hji)]

lemma passAux_getD_mem (obj : HeavyObject) (P : Bot → Prop)
    (hP : ∀ (cur : List Bot) (b : Bot), P (stepBot cur obj b)) :
    ∀ (idxs : List ℕ) (cur : List Bot) (j : ℕ), j < cur.length → j ∈ idxs →
      P ((passAux obj idxs cur).getD j default) := by
  intro idxs
  induction idxs with
  | nil => intro cur j _ h; exact absurd h (List.not_mem_nil j)
  | cons i rest ih =>
    intro cur j hj hmem
    rw [passAux]
    by_cases hjr : j ∈ rest
    · exact ih _ j (by rw [List.length_set]; exact hj) hjr
    · have hji : j = i := by
        rcases List.mem_cons.mp hmem with h | h
        · exact h
        · exact absurd h hjr
      subst hji
      rw [passAux_getD_not_mem obj rest _ j hjr]
      have hset : (cur.set j (stepBot cur obj (cur.getD j default))).getD j default
          = stepBot cur obj (cur.getD j default) := by
        simp [List.getD_eq_getElem?_getD, List.getElem?_set_self hj]
      rw [hset]
      exact hP _ _

lemma passAux_getD_pres (obj : HeavyObject) (P : Bot → Prop)
    (hP : ∀ (cur : List Bot) (b : Bot), P b → P (stepBot cur obj b)) :
    ∀ (idxs : List ℕ) (cur : List Bot) (j : ℕ), j < cur.length →
      P (cur.getD j default) → P ((passAux obj idxs cur).getD j default) := by
  intro idxs
  induction idxs with
  | nil => intro cur j _ hp; exact hp
  | cons i rest ih =>
    intro cur j hj hp
    rw [passAux]
    apply ih _ j (by rw [List.length_set]; exact hj)
    by_cases hji : j = i
    · subst hji
      have hset : (cur.set j (stepBot cur obj (cur.getD j default))).getD j default
          = stepBot cur obj (cur.getD j default) := by
        simp [List.getD_eq_getElem?_getD, List.getElem?_set_self hj]
      rw [hset]
      exact hP _ _ hp
    · have hij : i ≠ j := fun h => hji h.symm
      have hset : (cur.set i (stepBot cur obj (cur.getD i default))).getD j default
          = cur.getD j default := by
        simp [List.getD_eq_getElem?_getD, List.getElem?_set_ne hij]
      rw [hset]
      exact hp

lemma stepBot_phase (bots : List Bot) (obj : HeavyObject) (bot : Bot) :
    (stepBot bots obj bot).phase = bot.phase + (couplingAccum bots bot).2.2 * DT := rfl

lemma stepBot_energy (bots : List Bot) (obj : HeavyObject) (bot : Bot) :
    (stepBot bots obj bot).energy = bot.energy := rfl

lemma update_bots_bots (s : EngineState) :
    (update_bots s).bots = couplingPass s.object (s.bots.map advancePhase) := rfl

lemma update_bots_length (s : EngineState) :
    (update_bots s).bots.length = s.bots.length := by
  rw [update_bots_bots, couplingPass, passAux_length, List.length_map]

lemma update_object_bots (s : EngineState) : (update_object s).bots = s.bots := rfl

lemma sum_cos_sin_sq_le (l : List Bot) :
    ((l.map fun b => Real.cos b.phase).sum) ^ 2 + ((l.map fun b => Real.sin b.phase).sum) ^ 2
      ≤ (l.length : ℝ) ^ 2 := by
  induction l with
  | nil => simp
  | cons b t ih =>
    simp only [List.map_cons, List.sum_cons, List.length_cons]
    push_cast
    have hcs : Real.cos b.phase ^ 2 + Real.sin b.phase ^ 2 = 1 := Real.cos_sq_add_sin_sq _
    have hn : (0 : ℝ) ≤ (t.length : ℝ) := by positivity
    have h1 : ((t.map fun b => Real.cos b.phase).sum * Real.cos b.phase
        + (t.map fun b => Real.sin b.phase).sum * Real.sin b.phase) ^ 2 ≤ (t.length : ℝ) ^ 2 := by
      nlinarith [sq_nonneg ((t.map fun b => Real.cos b.phase).sum * Real.sin b.phase
        - (t.map fun b => Real.sin b.phase).sum * Real.cos b.phase), hcs, ih]
    have h2 : (t.map fun b => Real.cos b.phase).sum * Real.cos b.phase
        + (t.map fun b => Real.sin b.phase).sum * Real.sin b.phase ≤ (t.length : ℝ) := by
      nlinarith [h1, hn]
    nlinarith [ih, hcs, h2]

lemma sum_map_const_of_all {l : List Bot} {f : Bot → ℝ} {k : ℝ} (h : ∀ b ∈ l, f b = k) :
    (l.map f).sum = l.length * k := by
  induction l with
  | nil => simp
  | cons b t ih =>
    simp only [List.map_cons, List.sum_cons, List.length_cons]
    rw [h b (List.mem_cons_self b t), ih fun x hx => h x (List.mem_cons_of_mem b hx)]
    push_cast
    ring

/-- Claim C7 (confirmed): for every population of N ≥ 1 bots with arbitrary real
phases, the coherence of `get_metrics`, `sqrt((Σcos/N)² + (Σsin/N)²)`, lies in
[0, 1], equals 1 when all phases are identical, and equals 0 when the phase unit
vectors sum to zero. -/
theorem C7_coherence_bounds (bots : List Bot) (c : ℝ) (h : 1 ≤ bots.length) :
    0 ≤ coherence bots ∧ coherence bots ≤ 1 ∧
    ((∀ b ∈ bots, b.phase = c) → coherence bots = 1) ∧
    (((bots.map fun b => Real.cos b.phase).sum = 0 ∧
      (bots.map fun b => Real.sin b.phase).sum = 0) → coherence bots = 0) := by
  have hn : (1 : ℝ) ≤ (bots.length : ℝ) := by exact_mod_cast h
  have hn0 : (0 : ℝ) < (bots.length : ℝ) := lt_of_lt_of_le one_pos hn
  have hne : (bots.length : ℝ) ≠ 0 := ne_of_gt hn0
  refine ⟨Real.sqrt_nonneg _, ?_, ?_, ?_⟩
  · rw [coherence]
    apply Real.sqrt_le_one.mpr
    have hb := sum_cos_sin_sq_le bots
    have heq : (bots.map fun b => Real.cos b.phase).sum / (bots.length : ℝ)
          * ((bots.map fun b => Real.cos b.phase).sum / (bots.length : ℝ))
        + (bots.map fun b => Real.sin b.phase).sum / (bots.length : ℝ)
          * ((bots.map fun b => Real.sin b.phase).sum / (bots.length : ℝ))
        = (((bots.map fun b => Real.cos b.phase).sum) ^ 2
            + ((bots.map fun b => Real.sin b.phase).sum) ^ 2) / (bots.length : ℝ) ^ 2 := by
      field_simp
      ring
    rw [heq]
    exact div_le_one_of_le₀ hb (by positivity)
  · intro hall
    rw [coherence,
      sum_map_const_of_all (f := fun b => Real.cos b.phase) (k := Real.cos c)
        fun x hx => by simp only [hall x hx],
      sum_map_const_of_all (f := fun b => Real.sin b.phase) (k := Real.sin c)
        fun x hx => by simp only [hall x hx],
      mul_div_cancel_left₀ _ hne, mul_div_cancel_left₀ _ hne,
      show Real.cos c * Real.cos c + Real.sin c * Real.sin c
          = Real.cos c ^ 2 + Real.sin c ^ 2 by ring,
      Real.cos_sq_add_sin_sq, Real.sqrt_one]
  · rintro ⟨h1, h2⟩
    rw [coherence, h1, h2]
    simp

/-- Witness for C7 at a concrete singleton population with phase 0. -/
noncomputable def botW7 : Bot :=
  { id := 0, x := 100, y := 100, vx := 0, vy := 0, phase := 0, frequency := 1,
    target_x := 500, target_y := 500, energy := 1 }

/-- Witness for C7: the bounds instantiated at a one-bot population. -/
theorem C7_coherence_bounds_witness :
    1 ≤ [botW7].length ∧
    (0 ≤ coherence [botW7] ∧ coherence [botW7] ≤ 1 ∧
     ((∀ b ∈ [botW7], b.phase = 0) → coherence [botW7] = 1) ∧
     ((([botW7].map fun b => Real.cos b.phase).sum = 0 ∧
       ([botW7].map fun b => Real.sin b.phase).sum = 0) → coherence [botW7] = 0)) :=
  ⟨by simp, C7_coherence_bounds [botW7] 0 (by simp)⟩

/-- Claim C3 (confirmed): whenever two entities sit at exactly the same position
where a unit direction would be needed, the force contribution is skipped —
bot–bot collision avoidance and target attraction by explicit guards, and a bot
exactly at the object's center contributes nothing in `update_object` (its
degenerate velocity quotient fails the strict positivity test). -/
theorem C3_zero_distance_guards (b c p : Bot) (o : HeavyObject) (f : ℝ × ℝ) (acc : ℝ × ℝ × ℕ)
    (hx : b.x = c.x) (hy : b.y = c.y) (hpx : p.x = o.x) (hpy : p.y = o.y) :
    collisionStep b f c = f ∧ targetApply o p f = f ∧ botPush o acc p = acc := by
  have hzz : norm2 0 0 = 0 := norm2_eval le_rfl (by ring)
  refine ⟨?_, ?_, ?_⟩
  · simp [collisionStep, hx, hy, hzz]
  · simp [targetApply, hpx, hpy, hzz]
  · norm_num [botPush, objDist, velToward, hpx, hpy, hzz, OBJECT_RADIUS, BOT_RADIUS]

/-- Witness bots for C3: two bots at a shared position, one at the object's center. -/
noncomputable def botW3a : Bot :=
  { id := 0, x := 200, y := 300, vx := 0, vy := 0, phase := 0, frequency := 1,
    target_x := 500, target_y := 500, energy := 1 }

noncomputable def botW3b : Bot :=
  { id := 1, x := 200, y := 300, vx := 1, vy := 2, phase := 1, frequency := 1,
    target_x := 500, target_y := 500, energy := 1 }

noncomputable def botW3p : Bot :=
  { id := 2, x := 500, y := 500, vx := 3, vy := 0, phase := 0, frequency := 1,
    target_x := 500, target_y := 500, energy := 1 }

noncomputable def objW : HeavyObject :=
  { x := 500, y := 500, vx := 0, vy := 0, mass := 1000, radius := 50 }

/-- Witness for C3: the guards at concrete coincident positions. -/
theorem C3_zero_distance_guards_witness :
    botW3a.x = botW3b.x ∧ botW3a.y = botW3b.y ∧ botW3p.x = objW.x ∧ botW3p.y = objW.y ∧
    (collisionStep botW3a (2, 3) botW3b = (2, 3) ∧ targetApply objW botW3p (2, 3) = (2, 3) ∧
     botPush objW (1, 2, 5) botW3p = (1, 2, 5)) :=
  ⟨rfl, rfl, rfl, rfl,
    C3_zero_distance_guards botW3a botW3b botW3p objW (2, 3) (1, 2, 5) rfl rfl rfl rfl⟩

/-- Claim C2 (corrected), amended part: immediately after the wrapped free
advance (pass one of `update_bots`), a bot's phase lies in [0, 2π), provided
its previous phase and frequency are nonnegative; the later Kuramoto addition
is not wrapped and can leave [0, 2π). -/
theorem C2_amended_phase_wrap (b : Bot) (h1 : 0 ≤ b.phase) (h2 : 0 ≤ b.frequency) :
    0 ≤ (advancePhase b).phase ∧ (advancePhase b).phase < 2 * Real.pi := by
  have hb : (0 : ℝ) < 2 * Real.pi := by positivity
  have h0 : 0 ≤ b.phase + b.frequency * DT := by
    have hf : (0 : ℝ) ≤ b.frequency * DT := mul_nonneg h2 (by norm_num [DT])
    linarith
  simpa [advancePhase] using jsMod_nonneg_lt h0 hb

/-- Witness bot for C2's amended statement. -/
noncomputable def botW2 : Bot :=
  { id := 0, x := 100, y := 100, vx := 0, vy := 0, phase := 1, frequency := 1,
    target_x := 500, target_y := 500, energy := 1 }

/-- Witness for C2's amended statement at a concrete bot. -/
theorem C2_amended_phase_wrap_witness :
    (0 ≤ botW2.phase ∧ 0 ≤ botW2.frequency) ∧
    (0 ≤ (advancePhase botW2).phase ∧ (advancePhase botW2).phase < 2 * Real.pi) :=
  ⟨⟨by norm_num [botW2], by norm_num [botW2]⟩,
    C2_amended_phase_wrap botW2 (by norm_num [botW2]) (by norm_num [botW2])⟩

/-- Claim C4 (corrected), amended part: a bot not exactly at the object's
current center receives an attraction of magnitude exactly 0.5 directed as the
unit vector toward the object's current center (the stored target fields are
never consulted); a bot exactly at the object's current center receives none. -/
theorem C4_target_attraction (o : HeavyObject) (b p : Bot) (f g : ℝ × ℝ)
    (hb : ¬(b.x = o.x ∧ b.y = o.y)) (hpx : p.x = o.x) (hpy : p.y = o.y) :
    norm2 ((o.x - b.x) / norm2 (o.x - b.x) (o.y - b.y) * 0.5)
        ((o.y - b.y) / norm2 (o.x - b.x) (o.y - b.y) * 0.5) = 0.5 ∧
    targetApply o b f
      = (f.1 + (o.x - b.x) / norm2 (o.x - b.x) (o.y - b.y) * 0.5,
         f.2 + (o.y - b.y) / norm2 (o.x - b.x) (o.y - b.y) * 0.5) ∧
    targetApply o p g = g := by
  have hzz : norm2 0 0 = 0 := norm2_eval le_rfl (by ring)
  have hpos : 0 < norm2 (o.x - b.x) (o.y - b.y) := by
    rw [norm2]
    apply Real.sqrt_pos.mpr
    rcases not_and_or.mp hb with h | h
    · have hne : o.x - b.x ≠ 0 := sub_ne_zero.mpr fun hh => h hh.symm
      nlinarith [mul_self_nonneg (o.y - b.y), mul_self_pos.mpr hne]
    · have hne : o.y - b.y ≠ 0 := sub_ne_zero.mpr fun hh => h hh.symm
      nlinarith [mul_self_nonneg (o.x - b.x), mul_self_pos.mpr hne]
  have hne0 : norm2 (o.x - b.x) (o.y - b.y) ≠ 0 := ne_of_gt hpos
  refine ⟨?_, ?_, ?_⟩
  · rw [show (o.x - b.x) / norm2 (o.x - b.x) (o.y - b.y) * 0.5
        = (o.x - b.x) * (0.5 / norm2 (o.x - b.x) (o.y - b.y)) by ring,
      show (o.y - b.y) / norm2 (o.x - b.x) (o.y - b.y) * 0.5
        = (o.y - b.y) * (0.5 / norm2 (o.x - b.x) (o.y - b.y)) by ring,
      norm2_smul _ _ (by positivity), mul_comm, div_mul_cancel₀ _ hne0]
  · simp only [targetApply]
    rw [if_pos hpos]
  · simp [targetApply, hpx, hpy, hzz]

/-- Witness object and bots for C4's amended statement. -/
noncomputable def objW4 : HeavyObject :=
  { x := 600, y := 500, vx := 0, vy := 0, mass := 1000, radius := 50 }

noncomputable def botW4 : Bot :=
  { id := 0, x := 500, y := 500, vx := 0, vy := 0, phase := 0, frequency := 1,
    target_x := 500, target_y := 500, energy := 1 }

noncomputable def botW4p : Bot :=
  { id := 1, x := 600, y := 500, vx := 0, vy := 0, phase := 0, frequency := 1,
    target_x := 500, target_y := 500, energy := 1 }

/-- Witness for C4's amended statement at concrete positions. -/
theorem C4_target_attraction_witness :
    (¬(botW4.x = objW4.x ∧ botW4.y = objW4.y) ∧ botW4p.x = objW4.x ∧ botW4p.y = objW4.y) ∧
    (norm2 ((objW4.x - botW4.x) / norm2 (objW4.x - botW4.x) (objW4.y - botW4.y) * 0.5)
        ((objW4.y - botW4.y) / norm2 (objW4.x - botW4.x) (objW4.y - botW4.y) * 0.5) = 0.5 ∧
     targetApply objW4 botW4 (0, 0)
       = ((0 : ℝ) + (objW4.x - botW4.x) / norm2 (objW4.x - botW4.x) (objW4.y - botW4.y) * 0.5,
          (0 : ℝ) + (objW4.y - botW4.y) / norm2 (objW4.x - botW4.x) (objW4.y - botW4.y) * 0.5) ∧
     targetApply objW4 botW4p (0, 0) = (0, 0)) :=
  ⟨⟨fun h => by norm_num [botW4, objW4] at h, rfl, rfl⟩,
    C4_target_attraction objW4 botW4 botW4p (0, 0) (0, 0)
      (fun h => by norm_num [botW4, objW4] at h) rfl rfl⟩

/-- Counterexample for C4 as stated: a bot exactly at its stored target point
still receives a nonzero target-attraction force once the object's center has
moved away from that target, because the code pulls toward the object's current
position, not toward `(target_x, target_y)`. -/
theorem C4_counterexample :
    (botW4.x = botW4.target_x ∧ botW4.y = botW4.target_y) ∧
    targetApply objW4 botW4 (0, 0) ≠ (0, 0) := by
  have h1 : objW4.x - botW4.x = (100 : ℝ) := by norm_num [objW4, botW4]
  have h2 : objW4.y - botW4.y = (0 : ℝ) := by norm_num [objW4, botW4]
  have h100 : norm2 (100 : ℝ) 0 = 100 := norm2_eval (by norm_num) (by norm_num)
  refine ⟨⟨rfl, rfl⟩, ?_⟩
  have heval : targetApply objW4 botW4 (0, 0) = (0.5, 0) := by
    simp only [targetApply, h1, h2, h100]
    norm_num
  rw [heval]
  intro h
  have hfst := congrArg Prod.fst h
  norm_num at hfst

/-- Claim C6 (corrected), amended part: at distances beyond `RESONANCE_RANGE`
the computed coupling is exactly 0, the coupling loop contributes nothing to
force or phase influence, and (the distance being beyond `2 × BOT_RADIUS`)
neither does the collision loop. -/
theorem C6_amended_no_coupling (b other : Bot) (f : ℝ × ℝ) (acc : ℝ × ℝ × ℝ)
    (h : RESONANCE_RANGE < norm2 (b.x - other.x) (b.y - other.y)) :
    get_resonance_coupling b other = 0 ∧ couplingStep b acc other = acc ∧
    collisionStep b f other = f := by
  have hc : get_resonance_coupling b other = 0 := by
    simp only [get_resonance_coupling]
    rw [if_pos h]
  refine ⟨hc, ?_, ?_⟩
  · simp only [couplingStep]
    by_cases hid : b.id = other.id
    · rw [if_pos hid]
    · rw [if_neg hid, if_pos hc]
  · simp only [collisionStep]
    by_cases hid : b.id = other.id
    · rw [if_pos hid]
    · rw [if_neg hid, if_neg]
      intro hcon
      have h30 : RESONANCE_RANGE < BOT_RADIUS * 2 := lt_trans h hcon.1
      norm_num [RESONANCE_RANGE, BOT_RADIUS] at h30

/-- Witness bots for C6's amended statement: 101 units apart. -/
noncomputable def botW6a : Bot :=
  { id := 0, x := 100, y := 100, vx := 0, vy := 0, phase := 2, frequency := 1,
    target_x := 500, target_y := 500, energy := 1 }

noncomputable def botW6b : Bot :=
  { id := 1, x := 201, y := 100, vx := 0, vy := 0, phase := 5, frequency := 1,
    target_x := 500, target_y := 500, energy := 1 }

/-- Witness for C6's amended statement at two concrete bots 101 apart. -/
theorem C6_amended_no_coupling_witness :
    RESONANCE_RANGE < norm2 (botW6a.x - botW6b.x) (botW6a.y - botW6b.y) ∧
    (get_resonance_coupling botW6a botW6b = 0 ∧
     couplingStep botW6a (0, 0, 0) botW6b = (0, 0, 0) ∧
     collisionStep botW6a (1, 1) botW6b = (1, 1)) := by
  have hval : norm2 (botW6a.x - botW6b.x) (botW6a.y - botW6b.y) = 101 := by
    have h1 : botW6a.x - botW6b.x = (-101 : ℝ) := by norm_num [botW6a, botW6b]
    have h2 : botW6a.y - botW6b.y = (0 : ℝ) := by norm_num [botW6a, botW6b]
    rw [h1, h2]
    exact norm2_eval (by norm_num) (by norm_num)
  have h : RESONANCE_RANGE < norm2 (botW6a.x - botW6b.x) (botW6a.y - botW6b.y) := by
    rw [hval]
    norm_num [RESONANCE_RANGE]
  exact ⟨h, C6_amended_no_coupling botW6a botW6b (1, 1) (0, 0, 0) h⟩

/-- Concrete bots for C5: both 60 units from the object's center, one moving
directly away from it, one moving directly toward it. -/
noncomputable def botRecede : Bot :=
  { id := 0, x := 440, y := 500, vx := -1, vy := 0, phase := 0, frequency := 1,
    target_x := 500, target_y := 500, energy := 1 }

noncomputable def botApproach : Bot :=
  { id := 1, x := 440, y := 500, vx := 1, vy := 0, phase := 0, frequency := 1,
    target_x := 500, target_y := 500, energy := 1 }

/-- Claim C5 (code_bug): in `update_object` the displacement `dx = bot.x −
object.x` points away from the object, so the quantity the source names
`vel_toward_obj` is the outward radial velocity, and the `> 0` gate is
inverted relative to the claim, the spec, and the source's own comment
("velocity toward object").  At the failing input, a bot 60 units from the
center (inside push range 85) moving directly away from the center — its
velocity component toward the center is −60 < 0 — is credited with the
nonzero force contribution (−1, 0) and counted as interacting, while the
mirror-image bot moving directly toward the center contributes nothing. -/
theorem C5_direction_code_bug :
    objDist objW botRecede < OBJECT_RADIUS + BOT_RADIUS + 20 ∧
    botRecede.vx * (objW.x - botRecede.x) + botRecede.vy * (objW.y - botRecede.y) < 0 ∧
    botPush objW (0, 0, 0) botRecede = (-1, 0, 1) ∧
    0 < botApproach.vx * (objW.x - botApproach.x)
      + botApproach.vy * (objW.y - botApproach.y) ∧
    botPush objW (0, 0, 0) botApproach = (0, 0, 0) := by
  have hdR : objDist objW botRecede = 60 := by
    rw [objDist]
    have h1 : botRecede.x - objW.x = (-60 : ℝ) := by norm_num [botRecede, objW]
    have h2 : botRecede.y - objW.y = (0 : ℝ) := by norm_num [botRecede, objW]
    rw [h1, h2]
    exact norm2_eval (by norm_num) (by norm_num)
  have hdA : objDist objW botApproach = 60 := by
    rw [objDist]
    have h1 : botApproach.x - objW.x = (-60 : ℝ) := by norm_num [botApproach, objW]
    have h2 : botApproach.y - objW.y = (0 : ℝ) := by norm_num [botApproach, objW]
    rw [h1, h2]
    exact norm2_eval (by norm_num) (by norm_num)
  have hvR : velToward objW botRecede = 1 := by
    rw [velToward, hdR]
    norm_num [botRecede, objW]
  have hvA : velToward objW botApproach = -1 := by
    rw [velToward, hdA]
    norm_num [botApproach, objW]
  refine ⟨?_, ?_, ?_, ?_, ?_⟩
  · rw [hdR]
    norm_num [OBJECT_RADIUS, BOT_RADIUS]
  · norm_num [botRecede, objW]
  · rw [botPush, if_pos (by rw [hdR]; norm_num [OBJECT_RADIUS, BOT_RADIUS]),
      if_pos (by rw [hvR]; norm_num), hvR, hdR]
    norm_num [Prod.ext_iff, botRecede, objW]
  · norm_num [botApproach, objW]
  · rw [botPush, if_pos (by rw [hdA]; norm_num [OBJECT_RADIUS, BOT_RADIUS]),
      if_neg (by rw [hvA]; norm_num)]

lemma stepBot_clamped (cur : List Bot) (obj : HeavyObject) (b : Bot) :
    Clamped (stepBot cur obj b) := by
  have h : BOT_RADIUS ≤ WORLD_SIZE - BOT_RADIUS := by norm_num [BOT_RADIUS, WORLD_SIZE]
  refine ⟨?_, ?_, ?_, ?_⟩
  · show BOT_RADIUS ≤ max BOT_RADIUS _
    exact le_max_left _ _
  · show max BOT_RADIUS (min (WORLD_SIZE - BOT_RADIUS) _) ≤ WORLD_SIZE - BOT_RADIUS
    exact max_le h (min_le_left _ _)
  · show BOT_RADIUS ≤ max BOT_RADIUS _
    exact le_max_left _ _
  · show max BOT_RADIUS (min (WORLD_SIZE - BOT_RADIUS) _) ≤ WORLD_SIZE - BOT_RADIUS
    exact max_le h (min_le_left _ _)

/-- Claim C9 (confirmed): at the end of every tick each bot's position lies in
`[BOT_RADIUS, WORLD_SIZE − BOT_RADIUS]` and the object's position lies in
`[OBJECT_RADIUS, WORLD_SIZE − OBJECT_RADIUS]`, in both axes. -/
theorem C9_position_bounds (s : EngineState) :
    (∀ i : Fin (tick s).bots.length, Clamped ((tick s).bots.get i)) ∧
    (OBJECT_RADIUS ≤ (tick s).object.x ∧ (tick s).object.x ≤ WORLD_SIZE - OBJECT_RADIUS ∧
     OBJECT_RADIUS ≤ (tick s).object.y ∧ (tick s).object.y ≤ WORLD_SIZE - OBJECT_RADIUS) := by
  constructor
  · intro i
    have hlen : (tick s).bots.length = (s.bots.map advancePhase).length := by
      show (update_bots s).bots.length = _
      rw [update_bots_bots, couplingPass, passAux_length]
    have hi : (i : ℕ) < (s.bots.map advancePhase).length := hlen ▸ i.isLt
    have hget : (tick s).bots.get i = (tick s).bots.getD (i : ℕ) default := by
      rw [List.getD_eq_getElem?_getD, List.getElem?_eq_getElem i.isLt, Option.getD_some,
        List.get_eq_getElem]
    rw [hget]
    show Clamped ((couplingPass s.object (s.bots.map advancePhase)).getD (i : ℕ) default)
    rw [couplingPass]
    exact passAux_getD_mem s.object Clamped (fun cur b => stepBot_clamped cur s.object b)
      (List.range (s.bots.map advancePhase).length) _ (i : ℕ) hi (List.mem_range.mpr hi)
  · have h : OBJECT_RADIUS ≤ WORLD_SIZE - OBJECT_RADIUS := by
      norm_num [OBJECT_RADIUS, WORLD_SIZE]
    refine ⟨?_, ?_, ?_, ?_⟩
    · show OBJECT_RADIUS ≤ max OBJECT_RADIUS _
      exact le_max_left _ _
    · show max OBJECT_RADIUS (min (WORLD_SIZE - OBJECT_RADIUS) _) ≤ WORLD_SIZE - OBJECT_RADIUS
      exact max_le h (min_le_left _ _)
    · show OBJECT_RADIUS ≤ max OBJECT_RADIUS _
      exact le_max_left _ _
    · show max OBJECT_RADIUS (min (WORLD_SIZE - OBJECT_RADIUS) _) ≤ WORLD_SIZE - OBJECT_RADIUS
      exact max_le h (min_le_left _ _)

lemma capForce_le (f : ℝ × ℝ) : norm2 (capForce f).1 (capForce f).2 ≤ MAX_FORCE := by
  simp only [capForce]
  by_cases h : MAX_FORCE < norm2 f.1 f.2
  · rw [if_pos h]
    have hMF : (0 : ℝ) < MAX_FORCE := by norm_num [MAX_FORCE]
    have hfm : 0 < norm2 f.1 f.2 := lt_trans hMF h
    have hne : norm2 f.1 f.2 ≠ 0 := ne_of_gt hfm
    have heq : norm2 (f.1 / norm2 f.1 f.2 * MAX_FORCE) (f.2 / norm2 f.1 f.2 * MAX_FORCE)
        = MAX_FORCE := by
      rw [show f.1 / norm2 f.1 f.2 * MAX_FORCE
            = f.1 * (MAX_FORCE / norm2 f.1 f.2) by ring,
        show f.2 / norm2 f.1 f.2 * MAX_FORCE
            = f.2 * (MAX_FORCE / norm2 f.1 f.2) by ring,
        norm2_smul _ _ (by positivity), mul_comm, div_mul_cancel₀ _ hne]
    exact le_of_eq heq
  · rw [if_neg h]
    exact le_of_not_lt h

lemma stepBot_speed_le {E : ℝ} (cur : List Bot) (obj : HeavyObject) (b : Bot)
    (hE : b.energy ≤ E) (he : 0 ≤ b.energy)
    (hv : norm2 b.vx b.vy ≤ 0.95 / 0.05 * MAX_FORCE * DT * E) :
    norm2 (stepBot cur obj b).vx (stepBot cur obj b).vy
      ≤ 0.95 / 0.05 * MAX_FORCE * DT * E := by
  set f := capForce (collisionAccum cur b
    (targetApply obj b ((couplingAccum cur b).1, (couplingAccum cur b).2.1))) with hf
  have hvx : (stepBot cur obj b).vx = (b.vx + f.1 * DT * b.energy) * 0.95 := rfl
  have hvy : (stepBot cur obj b).vy = (b.vy + f.2 * DT * b.energy) * 0.95 := rfl
  rw [hvx, hvy, norm2_smul _ _ (by norm_num : (0 : ℝ) ≤ 0.95)]
  have htri := norm2_triangle b.vx b.vy (f.1 * DT * b.energy) (f.2 * DT * b.energy)
  have hDT : (0 : ℝ) ≤ DT := by norm_num [DT]
  have hMF : (0 : ℝ) ≤ MAX_FORCE := by norm_num [MAX_FORCE]
  have hsc : norm2 (f.1 * DT * b.energy) (f.2 * DT * b.energy)
      = norm2 f.1 f.2 * (DT * b.energy) := by
    rw [show f.1 * DT * b.energy = f.1 * (DT * b.energy) by ring,
      show f.2 * DT * b.energy = f.2 * (DT * b.energy) by ring,
      norm2_smul _ _ (mul_nonneg hDT he)]
  have hcap : norm2 f.1 f.2 ≤ MAX_FORCE := capForce_le _
  have hforce : norm2 f.1 f.2 * (DT * b.energy) ≤ MAX_FORCE * (DT * E) :=
    mul_le_mul hcap (mul_le_mul_of_nonneg_left hE hDT) (mul_nonneg hDT he) hMF
  nlinarith [htri, hsc, hforce, hv, norm2_nonneg b.vx b.vy,
    norm2_nonneg (f.1 * DT * b.energy) (f.2 * DT * b.energy)]

/-- Claim C10 (confirmed): with the applied force capped at `MAX_FORCE` and
damping 0.95, the per-tick update preserves the speed invariant
`|velocity| ≤ (0.95/0.05) × MAX_FORCE × DT × E` for every bot whose energy lies
in `[0, E]`, for any starting velocities already within the bound. -/
theorem C10_speed_invariant (s : EngineState) (E : ℝ)
    (hP : ∀ i : Fin s.bots.length,
        (s.bots.get i).energy ≤ E ∧ 0 ≤ (s.bots.get i).energy ∧
        norm2 (s.bots.get i).vx (s.bots.get i).vy ≤ 0.95 / 0.05 * MAX_FORCE * DT * E) :
    ∀ j : Fin (update_bots s).bots.length,
        norm2 ((update_bots s).bots.get j).vx ((update_bots s).bots.get j).vy
          ≤ 0.95 / 0.05 * MAX_FORCE * DT * E := by
  intro j
  rcases j with ⟨n, hltn⟩
  set P : Bot → Prop := fun b => b.energy ≤ E ∧ 0 ≤ b.energy ∧
      norm2 b.vx b.vy ≤ 0.95 / 0.05 * MAX_FORCE * DT * E with hPdef
  have hstep : ∀ (cur : List Bot) (b : Bot), P b → P (stepBot cur s.object b) := by
    intro cur b hb
    exact ⟨hb.1, hb.2.1, stepBot_speed_le cur s.object b hb.1 hb.2.1 hb.2.2⟩
  have hj : n < s.bots.length := lt_of_lt_of_eq hltn (update_bots_length s)
  have hget : (update_bots s).bots.get ⟨n, hltn⟩ = (update_bots s).bots.getD n default := by
    rw [List.getD_eq_getElem?_getD, List.getElem?_eq_getElem hltn, Option.getD_some,
      List.get_eq_getElem]
  have hinit : P ((s.bots.map advancePhase).getD n default) := by
    have hmap : (s.bots.map advancePhase).getD n default
        = advancePhase (s.bots.getD n default) := by
      rw [List.getD_eq_getElem?_getD, List.getElem?_map, List.getD_eq_getElem?_getD,
        List.getElem?_eq_getElem hj]
      rfl
    have hPb : P (s.bots.getD n default) := by
      have hPi := hP ⟨n, hj⟩
      have hg : s.bots.get ⟨n, hj⟩ = s.bots.getD n default := by
        rw [List.getD_eq_getElem?_getD, List.getElem?_eq_getElem hj, Option.getD_some,
          List.get_eq_getElem]
      rwa [hg] at hPi
    rw [hmap]
    exact ⟨hPb.1, hPb.2.1, hPb.2.2⟩
  rw [hget]
  have hres : P ((update_bots s).bots.getD n default) := by
    rw [update_bots_bots, couplingPass]
    exact passAux_getD_pres s.object P hstep _ _ _ (by rw [List.length_map]; exact hj) hinit
  exact hres.2.2

/-- Witness bot and state for C10. -/
noncomputable def botW10 : Bot :=
  { id := 0, x := 500, y := 400, vx := 0, vy := 0, phase := 0, frequency := 1,
    target_x := 500, target_y := 500, energy := 1 }

noncomputable def stateW10 : EngineState := ⟨[botW10], objW⟩

/-- Witness for C10 at a concrete one-bot state started from rest. -/
theorem C10_speed_invariant_witness :
    (∀ i : Fin stateW10.bots.length,
        (stateW10.bots.get i).energy ≤ 1 ∧ 0 ≤ (stateW10.bots.get i).energy ∧
        norm2 (stateW10.bots.get i).vx (stateW10.bots.get i).vy
          ≤ 0.95 / 0.05 * MAX_FORCE * DT * 1) ∧
    (∀ j : Fin (update_bots stateW10).bots.length,
        norm2 ((update_bots stateW10).bots.get j).vx ((update_bots stateW10).bots.get j).vy
          ≤ 0.95 / 0.05 * MAX_FORCE * DT * 1) := by
  have h0 : norm2 (0 : ℝ) 0 = 0 := norm2_eval le_rfl (by ring)
  have hyp : ∀ i : Fin stateW10.bots.length,
      (stateW10.bots.get i).energy ≤ 1 ∧ 0 ≤ (stateW10.bots.get i).energy ∧
      norm2 (stateW10.bots.get i).vx (stateW10.bots.get i).vy
        ≤ 0.95 / 0.05 * MAX_FORCE * DT * 1 := by
    intro i
    have hgi : stateW10.bots.get i = botW10 := by
      have h1 : (i : ℕ) = 0 := Nat.lt_one_iff.mp i.isLt
      rw [List.get_eq_getElem]
      have h2 : stateW10.bots[(i : ℕ)] = stateW10.bots.getD (i : ℕ) default := by
        rw [List.getD_eq_getElem?_getD, List.getElem?_eq_getElem i.isLt, Option.getD_some]
      rw [h2, h1]
      rfl
    rw [hgi]
    refine ⟨by norm_num [botW10], by norm_num [botW10], ?_⟩
    have hvd : botW10.vx = (0 : ℝ) := rfl
    have hvd2 : botW10.vy = (0 : ℝ) := rfl
    rw [hvd, hvd2, h0]
    norm_num [MAX_FORCE, DT]
  exact ⟨hyp, C10_speed_invariant stateW10 1 hyp⟩

/-! Evaluation lemmas for `couplingStep` and friends, used on concrete states. -/

lemma couplingStep_self (bot : Bot) (acc : ℝ × ℝ × ℝ) : couplingStep bot acc bot = acc := by
  simp [couplingStep]

lemma couplingStep_of_zero (bot other : Bot) (acc : ℝ × ℝ × ℝ)
    (hc : get_resonance_coupling bot other = 0) : couplingStep bot acc other = acc := by
  simp only [couplingStep]
  by_cases hid : bot.id = other.id
  · rw [if_pos hid]
  · rw [if_neg hid, if_pos hc]

lemma couplingStep_eq (bot other : Bot) (acc : ℝ × ℝ × ℝ) (hid : ¬bot.id = other.id)
    (hc : ¬get_resonance_coupling bot other = 0) :
    couplingStep bot acc other =
      (acc.1 + get_resonance_coupling bot other * (other.x - bot.x) * 0.01,
       acc.2.1 + get_resonance_coupling bot other * (other.y - bot.y) * 0.01,
       acc.2.2 + get_resonance_coupling bot other * Real.sin (other.phase - bot.phase)) := by
  simp only [couplingStep]
  rw [if_neg hid, if_neg hc]

lemma collisionStep_self (bot : Bot) (acc : ℝ × ℝ) : collisionStep bot acc bot = acc := by
  simp [collisionStep]

lemma coupling_far (b other : Bot)
    (h : RESONANCE_RANGE < norm2 (b.x - other.x) (b.y - other.y)) :
    get_resonance_coupling b other = 0 := by
  simp only [get_resonance_coupling]
  rw [if_pos h]

lemma collisionStep_far (b other : Bot) (f : ℝ × ℝ)
    (h : RESONANCE_RANGE < norm2 (b.x - other.x) (b.y - other.y)) :
    collisionStep b f other = f := by
  simp only [collisionStep]
  by_cases hid : b.id = other.id
  · rw [if_pos hid]
  · rw [if_neg hid, if_neg]
    intro hcon
    have h30 : RESONANCE_RANGE < BOT_RADIUS * 2 := lt_trans h hcon.1
    norm_num [RESONANCE_RANGE, BOT_RADIUS] at h30

/-! A concrete two-bot state at the object's center, exposing the sequential
in-place behaviour of the coupling pass.  Pre-tick phases are chosen so that
the wrapped free advance lands exactly on phases 0 and π/4. -/

noncomputable def botA : Bot :=
  { id := 0, x := 500, y := 500, vx := 0, vy := 0, phase := 2 * Real.pi - 0.016,
    frequency := 1, target_x := 500, target_y := 500, energy := 1 }

noncomputable def botB : Bot :=
  { id := 1, x := 500, y := 500, vx := 0, vy := 0, phase := Real.pi / 4 - 0.016,
    frequency := 1, target_x := 500, target_y := 500, energy := 1 }

noncomputable def objC : HeavyObject :=
  { x := 500, y := 500, vx := 0, vy := 0, mass := 1000, radius := 50 }

noncomputable def Spair : EngineState := ⟨[botA, botB], objC⟩

/-- `botA` after the free phase advance. -/
noncomputable def botA1 : Bot :=
  { id := 0, x := 500, y := 500, vx := 0, vy := 0, phase := 0,
    frequency := 1, target_x := 500, target_y := 500, energy := 1 }

/-- `botB` after the free phase advance. -/
noncomputable def botB1 : Bot := { botA1 with id := 1, phase := Real.pi / 4 }

/-- `botA1` after its sequential step: only its phase was nudged. -/
noncomputable def botA2 : Bot := { botA1 with phase := 0.0008 }

lemma advance_botA : advancePhase botA = botA1 := by
  simp only [advancePhase]
  have harg : botA.phase + botA.frequency * DT = 2 * Real.pi := by
    simp only [botA, DT]
    ring
  have hmod : jsMod (2 * Real.pi) (2 * Real.pi) = 0 := by
    rw [jsMod_eq_sub (by positivity) le_rfl (by nlinarith [Real.pi_pos])]
    ring
  rw [harg, hmod]
  rfl

lemma advance_botB : advancePhase botB = botB1 := by
  simp only [advancePhase]
  have harg : botB.phase + botB.frequency * DT = Real.pi / 4 := by
    simp only [botB, DT]
    ring
  have hmod : jsMod (Real.pi / 4) (2 * Real.pi) = Real.pi / 4 :=
    jsMod_eq_self (by positivity) (by positivity) (by nlinarith [Real.pi_pos])
  rw [harg, hmod]
  rfl

lemma pass1_Spair : Spair.bots.map advancePhase = [botA1, botB1] := by
  show [advancePhase botA, advancePhase botB] = [botA1, botB1]
  rw [advance_botA, advance_botB]

lemma id_A1_B1 : ¬botA1.id = botB1.id := by
  simp [botA1, botB1]

lemma coupling_A1_B1 : get_resonance_coupling botA1 botB1 = Real.sqrt 2 / 2 * (1 / 10) := by
  simp only [get_resonance_coupling]
  have hdx : botA1.x - botB1.x = (0 : ℝ) := by norm_num [botA1, botB1]
  have hdy : botA1.y - botB1.y = (0 : ℝ) := by norm_num [botA1, botB1]
  rw [hdx, hdy, norm2_eval le_rfl (by ring : (0 : ℝ) * 0 + 0 * 0 = 0 * 0)]
  rw [if_neg (by norm_num [RESONANCE_RANGE])]
  have hpd : |botA1.phase - botB1.phase| = Real.pi / 4 := by
    have hval : botA1.phase - botB1.phase = -(Real.pi / 4) := by
      show (0 : ℝ) - Real.pi / 4 = -(Real.pi / 4)
      ring
    rw [hval, abs_neg, abs_of_nonneg (by positivity)]
  rw [hpd, Real.cos_pi_div_four]
  have he1 : botA1.energy = (1 : ℝ) := rfl
  have he2 : botB1.energy = (1 : ℝ) := rfl
  rw [he1, he2]
  norm_num [COUPLING_STRENGTH, RESONANCE_RANGE]
  ring

lemma coupling_A1_B1_ne : ¬get_resonance_coupling botA1 botB1 = 0 := by
  rw [coupling_A1_B1]
  positivity

lemma accum_A1 : couplingAccum [botA1, botB1] botA1 = (0, 0, 1 / 20) := by
  rw [couplingAccum, List.foldl_cons, List.foldl_cons, List.foldl_nil, couplingStep_self,
    couplingStep_eq botA1 botB1 _ id_A1_B1 coupling_A1_B1_ne, coupling_A1_B1]
  have hdx : botB1.x - botA1.x = (0 : ℝ) := by norm_num [botA1, botB1]
  have hdy : botB1.y - botA1.y = (0 : ℝ) := by norm_num [botA1, botB1]
  have hsin : Real.sin (botB1.phase - botA1.phase) = Real.sqrt 2 / 2 := by
    show Real.sin (Real.pi / 4 - 0) = _
    rw [sub_zero, Real.sin_pi_div_four]
  rw [hdx, hdy, hsin]
  have h2 := sqrt_two_mul_self
  refine Prod.ext (by norm_num) (Prod.ext (by norm_num) ?_)
  show (0 : ℝ) + Real.sqrt 2 / 2 * (1 / 10) * (Real.sqrt 2 / 2) = 1 / 20
  linear_combination (1 / 40 : ℝ) * h2

lemma norm2_zero_zero : norm2 (0 : ℝ) 0 = 0 := norm2_eval le_rfl (by ring)

lemma target_center_A1 : targetApply objC botA1 (0, 0) = (0, 0) := by
  simp [targetApply, show objC.x - botA1.x = (0 : ℝ) by norm_num [objC, botA1],
    show objC.y - botA1.y = (0 : ℝ) by norm_num [objC, botA1], norm2_zero_zero]

lemma collision_A1 : collisionAccum [botA1, botB1] botA1 (0, 0) = (0, 0) := by
  rw [collisionAccum, List.foldl_cons, List.foldl_cons, List.foldl_nil, collisionStep_self]
  simp [collisionStep, id_A1_B1, show botA1.x - botB1.x = (0 : ℝ) by norm_num [botA1, botB1],
    show botA1.y - botB1.y = (0 : ℝ) by norm_num [botA1, botB1], norm2_zero_zero]

lemma capForce_zero : capForce (0, 0) = (0, 0) := by
  norm_num [capForce, norm2_zero_zero, MAX_FORCE]

lemma step0_Spair : stepBot [botA1, botB1] objC botA1 = botA2 := by
  simp only [stepBot, accum_A1]
  rw [target_center_A1, collision_A1, capForce_zero]
  simp only [botA2, botA1, Bot.mk.injEq]
  norm_num [DT, WORLD_SIZE, BOT_RADIUS, min_def, max_def]

lemma pass_Spair : (update_bots Spair).bots
    = [botA2, stepBot [botA2, botB1] objC botB1] := by
  rw [update_bots_bots, show Spair.object = objC from rfl, pass1_Spair, couplingPass,
    show List.range ([botA1, botB1].length) = [0, 1] from rfl, passAux]
  simp only [List.getD_cons_zero, List.set_cons_zero]
  rw [step0_Spair, passAux]
  simp only [List.getD_cons_succ, List.getD_cons_zero, List.set_cons_succ, List.set_cons_zero]
  rw [passAux]

lemma buf_Spair : (update_bots_buffered Spair).bots
    = [stepBot [botA1, botB1] objC botA1, stepBot [botA1, botB1] objC botB1] := by
  have hdef : (update_bots_buffered Spair).bots
      = (Spair.bots.map advancePhase).map
          (stepBot (Spair.bots.map advancePhase) Spair.object) := rfl
  rw [hdef, pass1_Spair]
  rfl

lemma id_B1_A2 : ¬botB1.id = botA2.id := by
  simp [botA1, botB1, botA2]

lemma pi_quarter_small : (0.0008 : ℝ) < Real.pi / 4 := by
  nlinarith [Real.pi_gt_three]

lemma coupling_B1_A2 : get_resonance_coupling botB1 botA2
    = Real.cos (Real.pi / 4 - 0.0008) * (1 / 10) := by
  simp only [get_resonance_coupling]
  have hdx : botB1.x - botA2.x = (0 : ℝ) := by norm_num [botA1, botB1, botA2]
  have hdy : botB1.y - botA2.y = (0 : ℝ) := by norm_num [botA1, botB1, botA2]
  rw [hdx, hdy, norm2_zero_zero, if_neg (by norm_num [RESONANCE_RANGE])]
  have hpd : |botB1.phase - botA2.phase| = Real.pi / 4 - 0.0008 := by
    have hval : botB1.phase - botA2.phase = Real.pi / 4 - 0.0008 := rfl
    rw [hval, abs_of_nonneg (le_of_lt (sub_pos.mpr pi_quarter_small))]
  rw [hpd]
  have he1 : botB1.energy = (1 : ℝ) := rfl
  have he2 : botA2.energy = (1 : ℝ) := rfl
  rw [he1, he2]
  norm_num [COUPLING_STRENGTH, RESONANCE_RANGE]
  ring

lemma cos_theta_pos : 0 < Real.cos (Real.pi / 4 - 0.0008) := by
  apply Real.cos_pos_of_mem_Ioo
  constructor
  · nlinarith [Real.pi_pos, pi_quarter_small]
  · nlinarith [Real.pi_pos]

lemma coupling_B1_A2_ne : ¬get_resonance_coupling botB1 botA2 = 0 := by
  rw [coupling_B1_A2]
  exact ne_of_gt (mul_pos cos_theta_pos (by norm_num))

lemma accum_B1_seq : (couplingAccum [botA2, botB1] botB1).2.2
    = -(Real.cos (Real.pi / 4 - 0.0008) * Real.sin (Real.pi / 4 - 0.0008)) / 10 := by
  rw [couplingAccum, List.foldl_cons, List.foldl_cons, List.foldl_nil,
    couplingStep_eq botB1 botA2 _ id_B1_A2 coupling_B1_A2_ne, couplingStep_self,
    coupling_B1_A2]
  have hsin : Real.sin (botA2.phase - botB1.phase) = -Real.sin (Real.pi / 4 - 0.0008) := by
    have hval : botA2.phase - botB1.phase = -(Real.pi / 4 - 0.0008) := by
      show (0.0008 : ℝ) - Real.pi / 4 = -(Real.pi / 4 - 0.0008)
      ring
    rw [hval, Real.sin_neg]
  show (0 : ℝ) + Real.cos (Real.pi / 4 - 0.0008) * (1 / 10)
      * Real.sin (botA2.phase - botB1.phase) = _
  rw [hsin]
  ring

lemma id_B1_A1 : ¬botB1.id = botA1.id := by
  simp [botA1, botB1]

lemma coupling_B1_A1 : get_resonance_coupling botB1 botA1 = Real.sqrt 2 / 2 * (1 / 10) := by
  simp only [get_resonance_coupling]
  have hdx : botB1.x - botA1.x = (0 : ℝ) := by norm_num [botA1, botB1]
  have hdy : botB1.y - botA1.y = (0 : ℝ) := by norm_num [botA1, botB1]
  rw [hdx, hdy, norm2_zero_zero, if_neg (by norm_num [RESONANCE_RANGE])]
  have hpd : |botB1.phase - botA1.phase| = Real.pi / 4 := by
    have hval : botB1.phase - botA1.phase = Real.pi / 4 := by
      show Real.pi / 4 - 0 = Real.pi / 4
      ring
    rw [hval, abs_of_nonneg (by positivity)]
  rw [hpd, Real.cos_pi_div_four]
  have he1 : botB1.energy = (1 : ℝ) := rfl
  have he2 : botA1.energy = (1 : ℝ) := rfl
  rw [he1, he2]
  norm_num [COUPLING_STRENGTH, RESONANCE_RANGE]
  ring

lemma coupling_B1_A1_ne : ¬get_resonance_coupling botB1 botA1 = 0 := by
  rw [coupling_B1_A1]
  positivity

lemma accum_B1_buf : (couplingAccum [botA1, botB1] botB1).2.2 = -(1 / 20) := by
  rw [couplingAccum, List.foldl_cons, List.foldl_cons, List.foldl_nil,
    couplingStep_eq botB1 botA1 _ id_B1_A1 coupling_B1_A1_ne, couplingStep_self,
    coupling_B1_A1]
  have hsin : Real.sin (botA1.phase - botB1.phase) = -(Real.sqrt 2 / 2) := by
    have hval : botA1.phase - botB1.phase = -(Real.pi / 4) := by
      show (0 : ℝ) - Real.pi / 4 = -(Real.pi / 4)
      ring
    rw [hval, Real.sin_neg, Real.sin_pi_div_four]
  show (0 : ℝ) + Real.sqrt 2 / 2 * (1 / 10) * Real.sin (botA1.phase - botB1.phase) = _
  rw [hsin]
  have h2 := sqrt_two_mul_self
  linear_combination (-1 / 40 : ℝ) * h2

lemma engine_eq {s t : EngineState} (hb : s.bots = t.bots) (ho : s.object = t.object) :
    s = t := by
  cases s
  cases t
  rw [EngineState.mk.injEq]
  exact ⟨hb, ho⟩

/-- Claim C1 (corrected), amended part: the free phase advance of all bots
completes before the coupling pass, but that pass is sequential and in place;
it coincides with the spec's double-buffered update in the absence of pairwise
interaction — here, for any single-bot population — while interacting bots can
diverge (see the counterexample). -/
theorem C1_amended_single_bot (b : Bot) (o : HeavyObject) :
    update_bots ⟨[b], o⟩ = update_bots_buffered ⟨[b], o⟩ := by
  have hseq : (update_bots ⟨[b], o⟩).bots = [stepBot [advancePhase b] o (advancePhase b)] := by
    rw [update_bots_bots]
    show couplingPass o [advancePhase b] = _
    rw [couplingPass, show List.range ([advancePhase b].length) = [0] from rfl, passAux]
    simp only [List.getD_cons_zero, List.set_cons_zero]
    rw [passAux]
  have hbuf : (update_bots_buffered ⟨[b], o⟩).bots
      = [stepBot [advancePhase b] o (advancePhase b)] := rfl
  exact engine_eq (by rw [hseq, hbuf]) rfl

/-- Counterexample for C1 as stated: on a concrete two-bot state the sequential
in-place `update_bots` differs from the double-buffered update, because the
second bot's Kuramoto term reads the first bot's already-nudged phase. -/
theorem C1_counterexample : update_bots Spair ≠ update_bots_buffered Spair := by
  intro h
  have hb : (update_bots Spair).bots = (update_bots_buffered Spair).bots :=
    congrArg EngineState.bots h
  rw [pass_Spair, buf_Spair] at hb
  have h1 : (stepBot [botA2, botB1] objC botB1).phase
      = (stepBot [botA1, botB1] objC botB1).phase := by
    have hcong := congrArg (fun l => (l.getD 1 default).phase) hb
    simpa using hcong
  rw [stepBot_phase, stepBot_phase, accum_B1_seq, accum_B1_buf] at h1
  have h2 : Real.cos (Real.pi / 4 - 0.0008) * Real.sin (Real.pi / 4 - 0.0008) = 1 / 2 := by
    have hDT : DT = (0.016 : ℝ) := rfl
    rw [hDT] at h1
    linear_combination (-625 : ℝ) * h1
  have h3 := Real.sin_two_mul (Real.pi / 4 - 0.0008)
  rw [show 2 * (Real.pi / 4 - 0.0008) = Real.pi / 2 - 0.0016 by ring,
    Real.sin_pi_div_two_sub] at h3
  have h6 : Real.cos 0.0016 < 1 := by
    have hc := cos_double_small_lt_one (x := 0.0008) (by norm_num)
      (lt_trans (by norm_num) Real.pi_gt_three)
    rwa [show (2 : ℝ) * 0.0008 = 0.0016 by norm_num] at hc
  nlinarith [h2, h3, h6]

/-- Counterexample for C8 as stated: the amount actually added to a bot's phase
beyond the free advance is the accumulated Kuramoto sum times `DT`, not the
accumulated sum itself — here the sum is 1/20 but the phase moves by 1/20 × DT. -/
theorem C8_counterexample :
    (couplingAccum [botA1, botB1] botA1).2.2 = 1 / 20 ∧
    ((update_bots Spair).bots.getD 0 default).phase - (advancePhase botA).phase
      = 1 / 20 * DT ∧
    (1 : ℝ) / 20 * DT ≠ 1 / 20 := by
  refine ⟨by rw [accum_A1], ?_, by norm_num [DT]⟩
  have hseq0 : (update_bots Spair).bots.getD 0 default = botA2 := by
    rw [pass_Spair]
    rfl
  rw [hseq0, advance_botA]
  show (0.0008 : ℝ) - 0 = 1 / 20 * DT
  norm_num [DT]

/-- Claim C8 (corrected), amended part: in each tick the total amount added to
a bot's phase by synchronization beyond the free advance equals `DT` times the
accumulated sum over coupled neighbours of `coupling × sin(phase_j − phase_i)`,
applied directly to the phase once per tick (no phase-velocity state). -/
theorem C8_amended_phase_nudge (bots : List Bot) (obj : HeavyObject) (b : Bot) :
    (stepBot bots obj b).phase = b.phase + (couplingAccum bots b).2.2 * DT :=
  stepBot_phase bots obj b

/-! Concrete state refuting the phase-interval invariant: after the wrapped
free advance lands just below 2π, the un-wrapped Kuramoto nudge pushes the
phase above 2π. -/

noncomputable def botC2a : Bot :=
  { id := 0, x := 500, y := 500, vx := 0, vy := 0, phase := 2 * Real.pi - 0.0161,
    frequency := 1, target_x := 500, target_y := 500, energy := 1 }

noncomputable def botC2b : Bot := { botC2a with id := 1, phase := Real.pi / 4 - 0.0161 }

noncomputable def SC2 : EngineState := ⟨[botC2a, botC2b], objC⟩

noncomputable def botC2a1 : Bot := { botC2a with phase := 2 * Real.pi - 0.0001 }

noncomputable def botC2b1 : Bot := { botC2a with id := 1, phase := Real.pi / 4 - 0.0001 }

lemma advance_botC2a : advancePhase botC2a = botC2a1 := by
  simp only [advancePhase]
  have harg : botC2a.phase + botC2a.frequency * DT = 2 * Real.pi - 0.0001 := by
    simp only [botC2a, DT]
    ring
  have hmod : jsMod (2 * Real.pi - 0.0001) (2 * Real.pi) = 2 * Real.pi - 0.0001 :=
    jsMod_eq_self (by nlinarith [Real.pi_gt_three]) (by positivity) (by norm_num)
  rw [harg, hmod]
  rfl

lemma advance_botC2b : advancePhase botC2b = botC2b1 := by
  simp only [advancePhase]
  have harg : botC2b.phase + botC2b.frequency * DT = Real.pi / 4 - 0.0001 := by
    simp only [botC2b, botC2a, DT]
    ring
  have hmod : jsMod (Real.pi / 4 - 0.0001) (2 * Real.pi) = Real.pi / 4 - 0.0001 :=
    jsMod_eq_self (by nlinarith [Real.pi_gt_three]) (by positivity)
      (by nlinarith [Real.pi_pos])
  rw [harg, hmod]
  rfl

lemma pass1_SC2 : SC2.bots.map advancePhase = [botC2a1, botC2b1] := by
  show [advancePhase botC2a, advancePhase botC2b] = [botC2a1, botC2b1]
  rw [advance_botC2a, advance_botC2b]

lemma id_C2 : ¬botC2a1.id = botC2b1.id := by
  simp [botC2a1, botC2b1, botC2a]

lemma coupling_C2 : get_resonance_coupling botC2a1 botC2b1 = Real.sqrt 2 / 2 * (1 / 10) := by
  simp only [get_resonance_coupling]
  have hdx : botC2a1.x - botC2b1.x = (0 : ℝ) := by norm_num [botC2a1, botC2b1, botC2a]
  have hdy : botC2a1.y - botC2b1.y = (0 : ℝ) := by norm_num [botC2a1, botC2b1, botC2a]
  rw [hdx, hdy, norm2_zero_zero, if_neg (by norm_num [RESONANCE_RANGE])]
  have hpd : |botC2a1.phase - botC2b1.phase| = 7 * Real.pi / 4 := by
    have hval : botC2a1.phase - botC2b1.phase = 7 * Real.pi / 4 := by
      show (2 * Real.pi - 0.0001) - (Real.pi / 4 - 0.0001) = 7 * Real.pi / 4
      ring
    rw [hval, abs_of_nonneg (by positivity)]
  rw [hpd, cos_seven_pi_quarter]
  have he1 : botC2a1.energy = (1 : ℝ) := rfl
  have he2 : botC2b1.energy = (1 : ℝ) := rfl
  rw [he1, he2]
  norm_num [COUPLING_STRENGTH, RESONANCE_RANGE]
  ring

lemma coupling_C2_ne : ¬get_resonance_coupling botC2a1 botC2b1 = 0 := by
  rw [coupling_C2]
  positivity

lemma accumC2 : couplingAccum [botC2a1, botC2b1] botC2a1 = (0, 0, 1 / 20) := by
  rw [couplingAccum, List.foldl_cons, List.foldl_cons, List.foldl_nil, couplingStep_self,
    couplingStep_eq botC2a1 botC2b1 _ id_C2 coupling_C2_ne, coupling_C2]
  have hdx : botC2b1.x - botC2a1.x = (0 : ℝ) := by norm_num [botC2a1, botC2b1, botC2a]
  have hdy : botC2b1.y - botC2a1.y = (0 : ℝ) := by norm_num [botC2a1, botC2b1, botC2a]
  have hsin : Real.sin (botC2b1.phase - botC2a1.phase) = Real.sqrt 2 / 2 := by
    have hval : botC2b1.phase - botC2a1.phase = Real.pi / 4 - 2 * Real.pi := by
      show (Real.pi / 4 - 0.0001) - (2 * Real.pi - 0.0001) = Real.pi / 4 - 2 * Real.pi
      ring
    rw [hval, sin_pi_quarter_sub_two_pi]
  rw [hdx, hdy, hsin]
  refine Prod.ext (by norm_num) (Prod.ext (by norm_num) ?_)
  show (0 : ℝ) + Real.sqrt 2 / 2 * (1 / 10) * (Real.sqrt 2 / 2) = 1 / 20
  linear_combination (1 / 40 : ℝ) * sqrt_two_mul_self

lemma seqC2 : (update_bots SC2).bots.getD 0 default
    = stepBot [botC2a1, botC2b1] objC botC2a1 := by
  rw [update_bots_bots, show SC2.object = objC from rfl, pass1_SC2, couplingPass,
    show List.range ([botC2a1, botC2b1].length) = [0, 1] from rfl, passAux]
  simp only [List.getD_cons_zero, List.set_cons_zero]
  rw [passAux_getD_not_mem objC [1] _ 0 (by simp)]
  simp

/-- Counterexample for C2 as stated: on a concrete two-bot state, bot 0's phase
at the end of `update_bots` equals `2π − 0.0001 + (1/20) × DT = 2π + 0.0007`,
which lies outside `[0, 2π)` — the Kuramoto nudge is applied after the wrap. -/
theorem C2_counterexample :
    ¬(0 ≤ ((update_bots SC2).bots.getD 0 default).phase ∧
      ((update_bots SC2).bots.getD 0 default).phase < 2 * Real.pi) := by
  have hph : ((update_bots SC2).bots.getD 0 default).phase
      = 2 * Real.pi - 0.0001 + 1 / 20 * DT := by
    rw [seqC2, stepBot_phase, accumC2]
    rfl
  rw [hph]
  intro hcon
  have h2 := hcon.2
  rw [show DT = (0.016 : ℝ) from rfl] at h2
  linarith

/-! Concrete states refuting the no-dependence-beyond-range clause of C6: two
bots 101 apart, but bot 0 is fast enough to move within resonance range before
bot 1 is evaluated, so bot 1's end-of-tick phase depends on bot 0's phase. -/

noncomputable def botC6a : Bot :=
  { id := 0, x := 399, y := 500, vx := 100, vy := 0, phase := 7 * Real.pi / 4 - 0.016,
    frequency := 1, target_x := 500, target_y := 500, energy := 1 }

noncomputable def botC6b : Bot :=
  { id := 1, x := 500, y := 500, vx := 0, vy := 0, phase := 2 * Real.pi - 0.016,
    frequency := 1, target_x := 500, target_y := 500, energy := 1 }

noncomputable def botC6av : Bot := { botC6a with phase := 2 * Real.pi - 0.016 }

noncomputable def SC6 : EngineState := ⟨[botC6a, botC6b], objC⟩

noncomputable def SC6v : EngineState := ⟨[botC6av, botC6b], objC⟩

noncomputable def botC6a1 : Bot := { botC6a with phase := 7 * Real.pi / 4 }

noncomputable def botC6b1 : Bot := { botC6b with phase := 0 }

noncomputable def botC6av1 : Bot := { botC6a with phase := 0 }

noncomputable def botC6a2 : Bot :=
  { botC6a with x := 400.5201216, vx := 95.0076, phase := 7 * Real.pi / 4 }

noncomputable def botC6av2 : Bot := { botC6a with x := 400.5201216, vx := 95.0076, phase := 0 }

lemma jsMod_two_pi : jsMod (2 * Real.pi) (2 * Real.pi) = 0 := by
  rw [jsMod_eq_sub (by positivity) le_rfl (by nlinarith [Real.pi_pos])]
  ring

lemma advance_botC6a : advancePhase botC6a = botC6a1 := by
  simp only [advancePhase]
  have harg : botC6a.phase + botC6a.frequency * DT = 7 * Real.pi / 4 := by
    simp only [botC6a, DT]
    ring
  have hmod : jsMod (7 * Real.pi / 4) (2 * Real.pi) = 7 * Real.pi / 4 :=
    jsMod_eq_self (by positivity) (by positivity) (by nlinarith [Real.pi_pos])
  rw [harg, hmod]
  rfl

lemma advance_botC6b : advancePhase botC6b = botC6b1 := by
  simp only [advancePhase]
  have harg : botC6b.phase + botC6b.frequency * DT = 2 * Real.pi := by
    simp only [botC6b, DT]
    ring
  rw [harg, jsMod_two_pi]
  rfl

lemma advance_botC6av : advancePhase botC6av = botC6av1 := by
  simp only [advancePhase]
  have harg : botC6av.phase + botC6av.frequency * DT = 2 * Real.pi := by
    simp only [botC6av, botC6a, DT]
    ring
  rw [harg, jsMod_two_pi]
  rfl

lemma pass1_SC6 : SC6.bots.map advancePhase = [botC6a1, botC6b1] := by
  show [advancePhase botC6a, advancePhase botC6b] = [botC6a1, botC6b1]
  rw [advance_botC6a, advance_botC6b]

lemma pass1_SC6v : SC6v.bots.map advancePhase = [botC6av1, botC6b1] := by
  show [advancePhase botC6av, advancePhase botC6b] = [botC6av1, botC6b1]
  rw [advance_botC6av, advance_botC6b]

lemma far_C6 : RESONANCE_RANGE < norm2 (botC6a1.x - botC6b1.x) (botC6a1.y - botC6b1.y) := by
  have hdx : botC6a1.x - botC6b1.x = (-101 : ℝ) := by norm_num [botC6a1, botC6b1, botC6a, botC6b]
  have hdy : botC6a1.y - botC6b1.y = (0 : ℝ) := by norm_num [botC6a1, botC6b1, botC6a, botC6b]
  rw [hdx, hdy, norm2_eval (r := 101) (by norm_num) (by norm_num)]
  norm_num [RESONANCE_RANGE]

lemma far_C6v : RESONANCE_RANGE < norm2 (botC6av1.x - botC6b1.x) (botC6av1.y - botC6b1.y) := by
  have hdx : botC6av1.x - botC6b1.x = (-101 : ℝ) := by
    norm_num [botC6av1, botC6b1, botC6a, botC6b]
  have hdy : botC6av1.y - botC6b1.y = (0 : ℝ) := by
    norm_num [botC6av1, botC6b1, botC6a, botC6b]
  rw [hdx, hdy, norm2_eval (r := 101) (by norm_num) (by norm_num)]
  norm_num [RESONANCE_RANGE]

lemma accum0_SC6 : couplingAccum [botC6a1, botC6b1] botC6a1 = (0, 0, 0) := by
  rw [couplingAccum, List.foldl_cons, List.foldl_cons, List.foldl_nil, couplingStep_self,
    couplingStep_of_zero _ _ _ (coupling_far _ _ far_C6)]

lemma accum0_SC6v : couplingAccum [botC6av1, botC6b1] botC6av1 = (0, 0, 0) := by
  rw [couplingAccum, List.foldl_cons, List.foldl_cons, List.foldl_nil, couplingStep_self,
    couplingStep_of_zero _ _ _ (coupling_far _ _ far_C6v)]

lemma target_C6 : targetApply objC botC6a1 (0, 0) = (0.5, 0) := by
  simp only [targetApply]
  have hdx : objC.x - botC6a1.x = (101 : ℝ) := by norm_num [objC, botC6a1, botC6a]
  have hdy : objC.y - botC6a1.y = (0 : ℝ) := by norm_num [objC, botC6a1, botC6a]
  rw [hdx, hdy, norm2_eval (r := 101) (by norm_num) (by norm_num)]
  norm_num

lemma target_C6v : targetApply objC botC6av1 (0, 0) = (0.5, 0) := by
  simp only [targetApply]
  have hdx : objC.x - botC6av1.x = (101 : ℝ) := by norm_num [objC, botC6av1, botC6a]
  have hdy : objC.y - botC6av1.y = (0 : ℝ) := by norm_num [objC, botC6av1, botC6a]
  rw [hdx, hdy, norm2_eval (r := 101) (by norm_num) (by norm_num)]
  norm_num

lemma collision_C6 : collisionAccum [botC6a1, botC6b1] botC6a1 (0.5, 0) = (0.5, 0) := by
  rw [collisionAccum, List.foldl_cons, List.foldl_cons, List.foldl_nil, collisionStep_self,
    collisionStep_far _ _ _ far_C6]

lemma collision_C6v : collisionAccum [botC6av1, botC6b1] botC6av1 (0.5, 0) = (0.5, 0) := by
  rw [collisionAccum, List.foldl_cons, List.foldl_cons, List.foldl_nil, collisionStep_self,
    collisionStep_far _ _ _ far_C6v]

lemma capForce_half : capForce (0.5, 0) = (0.5, 0) := by
  have h05 : norm2 ((1 : ℝ) / 2) 0 = 1 / 2 := norm2_eval (by norm_num) (by norm_num)
  norm_num [capForce, h05, MAX_FORCE]

lemma step0_SC6 : stepBot [botC6a1, botC6b1] objC botC6a1 = botC6a2 := by
  simp only [stepBot, accum0_SC6]
  rw [target_C6, collision_C6, capForce_half]
  simp only [botC6a2, botC6a1, botC6a, Bot.mk.injEq]
  norm_num [DT, WORLD_SIZE, BOT_RADIUS, min_def, max_def]

lemma step0_SC6v : stepBot [botC6av1, botC6b1] objC botC6av1 = botC6av2 := by
  simp only [stepBot, accum0_SC6v]
  rw [target_C6v, collision_C6v, capForce_half]
  simp only [botC6av2, botC6av1, botC6a, Bot.mk.injEq]
  norm_num [DT, WORLD_SIZE, BOT_RADIUS, min_def, max_def]

lemma id_C6 : ¬botC6b1.id = botC6a2.id := by
  simp [botC6b1, botC6b, botC6a2, botC6a]

lemma id_C6v : ¬botC6b1.id = botC6av2.id := by
  simp [botC6b1, botC6b, botC6av2, botC6a]

lemma coupling_C6_seq : get_resonance_coupling botC6b1 botC6a2
    = Real.sqrt 2 * 0.0002600608 := by
  simp only [get_resonance_coupling]
  have hdx : botC6b1.x - botC6a2.x = (99.4798784 : ℝ) := by
    norm_num [botC6b1, botC6b, botC6a2, botC6a]
  have hdy : botC6b1.y - botC6a2.y = (0 : ℝ) := by
    norm_num [botC6b1, botC6b, botC6a2, botC6a]
  rw [hdx, hdy, norm2_eval (r := 99.4798784) (by norm_num) (by norm_num)]
  rw [if_neg (by norm_num [RESONANCE_RANGE])]
  have hpd : |botC6b1.phase - botC6a2.phase| = 7 * Real.pi / 4 := by
    have hval : botC6b1.phase - botC6a2.phase = -(7 * Real.pi / 4) := by
      show (0 : ℝ) - 7 * Real.pi / 4 = -(7 * Real.pi / 4)
      ring
    rw [hval, abs_neg, abs_of_nonneg (by positivity)]
  rw [hpd, cos_seven_pi_quarter]
  have he1 : botC6b1.energy = (1 : ℝ) := rfl
  have he2 : botC6a2.energy = (1 : ℝ) := rfl
  rw [he1, he2]
  norm_num [COUPLING_STRENGTH, RESONANCE_RANGE]
  ring

lemma coupling_C6_seq_ne : ¬get_resonance_coupling botC6b1 botC6a2 = 0 := by
  rw [coupling_C6_seq]
  positivity

lemma coupling_C6v : get_resonance_coupling botC6b1 botC6av2 = 0.0005201216 := by
  simp only [get_resonance_coupling]
  have hdx : botC6b1.x - botC6av2.x = (99.4798784 : ℝ) := by
    norm_num [botC6b1, botC6b, botC6av2, botC6a]
  have hdy : botC6b1.y - botC6av2.y = (0 : ℝ) := by
    norm_num [botC6b1, botC6b, botC6av2, botC6a]
  rw [hdx, hdy, norm2_eval (r := 99.4798784) (by norm_num) (by norm_num)]
  rw [if_neg (by norm_num [RESONANCE_RANGE])]
  have hpd : |botC6b1.phase - botC6av2.phase| = 0 := by
    have hval : botC6b1.phase - botC6av2.phase = 0 := by
      show (0 : ℝ) - 0 = 0
      ring
    rw [hval, abs_zero]
  rw [hpd, Real.cos_zero]
  have he1 : botC6b1.energy = (1 : ℝ) := rfl
  have he2 : botC6av2.energy = (1 : ℝ) := rfl
  rw [he1, he2]
  norm_num [COUPLING_STRENGTH, RESONANCE_RANGE]

lemma coupling_C6v_ne : ¬get_resonance_coupling botC6b1 botC6av2 = 0 := by
  rw [coupling_C6v]
  norm_num

lemma accum_C6_seq : (couplingAccum [botC6a2, botC6b1] botC6b1).2.2 = -0.0002600608 := by
  rw [couplingAccum, List.foldl_cons, List.foldl_cons, List.foldl_nil,
    couplingStep_eq botC6b1 botC6a2 _ id_C6 coupling_C6_seq_ne, couplingStep_self,
    coupling_C6_seq]
  have hsin : Real.sin (botC6a2.phase - botC6b1.phase) = -(Real.sqrt 2 / 2) := by
    have hval : botC6a2.phase - botC6b1.phase = 7 * Real.pi / 4 := by
      show 7 * Real.pi / 4 - (0 : ℝ) = 7 * Real.pi / 4
      ring
    rw [hval, sin_seven_pi_quarter]
  show (0 : ℝ) + Real.sqrt 2 * 0.0002600608 * Real.sin (botC6a2.phase - botC6b1.phase)
      = -0.0002600608
  rw [hsin]
  linear_combination (-0.0002600608 / 2 : ℝ) * sqrt_two_mul_self

lemma accum_C6v : (couplingAccum [botC6av2, botC6b1] botC6b1).2.2 = 0 := by
  rw [couplingAccum, List.foldl_cons, List.foldl_cons, List.foldl_nil,
    couplingStep_eq botC6b1 botC6av2 _ id_C6v coupling_C6v_ne, couplingStep_self,
    coupling_C6v]
  have hsin : Real.sin (botC6av2.phase - botC6b1.phase) = 0 := by
    have hval : botC6av2.phase - botC6b1.phase = 0 := by
      show (0 : ℝ) - 0 = 0
      ring
    rw [hval, Real.sin_zero]
  show (0 : ℝ) + 0.0005201216 * Real.sin (botC6av2.phase - botC6b1.phase) = 0
  rw [hsin]
  ring

lemma pass_SC6 : (update_bots SC6).bots
    = [botC6a2, stepBot [botC6a2, botC6b1] objC botC6b1] := by
  rw [update_bots_bots, show SC6.object = objC from rfl, pass1_SC6, couplingPass,
    show List.range ([botC6a1, botC6b1].length) = [0, 1] from rfl, passAux]
  simp only [List.getD_cons_zero, List.set_cons_zero]
  rw [step0_SC6, passAux]
  simp only [List.getD_cons_succ, List.getD_cons_zero, List.set_cons_succ, List.set_cons_zero]
  rw [passAux]

lemma pass_SC6v : (update_bots SC6v).bots
    = [botC6av2, stepBot [botC6av2, botC6b1] objC botC6b1] := by
  rw [update_bots_bots, show SC6v.object = objC from rfl, pass1_SC6v, couplingPass,
    show List.range ([botC6av1, botC6b1].length) = [0, 1] from rfl, passAux]
  simp only [List.getD_cons_zero, List.set_cons_zero]
  rw [step0_SC6v, passAux]
  simp only [List.getD_cons_succ, List.getD_cons_zero, List.set_cons_succ, List.set_cons_zero]
  rw [passAux]

/-- Counterexample for C6's final clause: `SC6` and `SC6v` differ only in bot
0's phase, the two bots start the tick 101 > `RESONANCE_RANGE` apart, yet bot
1's end-of-tick phase differs between the two runs — bot 0 moves into range
during the sequential pass, so bot 1's update does depend on bot 0. -/
theorem C6_counterexample :
    RESONANCE_RANGE < norm2 (botC6a.x - botC6b.x) (botC6a.y - botC6b.y) ∧
    botC6av = { botC6a with phase := 2 * Real.pi - 0.016 } ∧
    ((update_bots SC6).bots.getD 1 default).phase
      ≠ ((update_bots SC6v).bots.getD 1 default).phase := by
  refine ⟨?_, rfl, ?_⟩
  · have hdx : botC6a.x - botC6b.x = (-101 : ℝ) := by norm_num [botC6a, botC6b]
    have hdy : botC6a.y - botC6b.y = (0 : ℝ) := by norm_num [botC6a, botC6b]
    rw [hdx, hdy, norm2_eval (r := 101) (by norm_num) (by norm_num)]
    norm_num [RESONANCE_RANGE]
  · have h1 : (update_bots SC6).bots.getD 1 default
        = stepBot [botC6a2, botC6b1] objC botC6b1 := by
      rw [pass_SC6]
      rfl
    have h2 : (update_bots SC6v).bots.getD 1 default
        = stepBot [botC6av2, botC6b1] objC botC6b1 := by
      rw [pass_SC6v]
      rfl
    rw [h1, h2, stepBot_phase, stepBot_phase, accum_C6_seq, accum_C6v]
    show (0 : ℝ) + (-0.0002600608) * DT ≠ (0 : ℝ) + 0 * DT
    norm_num [DT]

end SwarmSim
